import Mathlib

/-!
Environment configuration of the multi-environment build demo.

A shallow embedding of `lib/config.js`, `app/api/health/route.js`,
`next.config.js` and `app/page.jsx`.

`process.env` is a read-only mapping from variable names to optional strings.
JavaScript values that can reach a field are modelled by `JSValue`; the result
of a property lookup on the plain object `config` is either one of its own
profiles or a member inherited from `Object.prototype`.
-/

namespace EnvConfig

/-! ## JavaScript values -/

/-- Primitive JavaScript values that occur in the fields of the program. -/
inductive JSValue where
  | undefined
  | null
  | bool (b : Bool)
  | str (s : String)
  deriving DecidableEq, Repr

/-- JavaScript truthiness: `undefined`, `null`, `false` and `''` are falsy. -/
def JSValue.truthy : JSValue → Bool
  | .undefined => false
  | .null => false
  | .bool b => b
  | .str s => decide (s ≠ "")

/-- The operator `a || b`. -/
def JSValue.or (a b : JSValue) : JSValue :=
  if a.truthy then a else b

/-- The operator `!!a`. -/
def JSValue.notNot (a : JSValue) : JSValue :=
  .bool a.truthy

/-- Whether a value is of type string. -/
def JSValue.isString : JSValue → Bool
  | .str _ => true
  | _ => false

/-- Whether a value is of type boolean. -/
def JSValue.isBoolean : JSValue → Bool
  | .bool _ => true
  | _ => false

/-- The environment of the process, `process.env`: each variable is a string or unset. -/
abbrev ProcessEnv := String → Option String

/-- The expression `process.env[key]` for a variable name `key`. -/
def ProcessEnv.read (env : ProcessEnv) (key : String) : JSValue :=
  match env key with
  | some s => .str s
  | none => .undefined

/-- The idiom `process.env[key] || fallback` with a string literal `fallback`:
the result is always a string. -/
def ProcessEnv.readOr (env : ProcessEnv) (key : String) (fallback : String) : String :=
  match (env.read key).or (.str fallback) with
  | .str s => s
  | _ => fallback

/-! ## lib/config.js -/

/-- One profile of the `config` object literal of `getConfig`. -/
structure ConfigRecord where
  apiUrl : JSValue
  environment : JSValue
  logLevel : JSValue
  databaseUrl : JSValue
  stripePublishableKey : JSValue
  featureBeta : JSValue
  analyticsEnabled : JSValue
  deriving DecidableEq, Repr

/-- The value of `config.development`. -/
def config.development (env : ProcessEnv) : ConfigRecord where
  apiUrl := .str (env.readOr "NEXT_PUBLIC_API_URL" "http://localhost:3000/api")
  environment := .str "development"
  logLevel := .str "debug"
  databaseUrl := env.read "DATABASE_URL"
  stripePublishableKey := env.read "NEXT_PUBLIC_STRIPE_PUBLISHABLE_KEY"
  featureBeta := .bool true
  analyticsEnabled := .bool false

/-- The value of `config.staging`. -/
def config.staging (env : ProcessEnv) : ConfigRecord where
  apiUrl := .str (env.readOr "NEXT_PUBLIC_API_URL" "https://staging-api.example.com")
  environment := .str "staging"
  logLevel := .str "info"
  databaseUrl := env.read "DATABASE_URL"
  stripePublishableKey := env.read "NEXT_PUBLIC_STRIPE_PUBLISHABLE_KEY"
  featureBeta := .bool true
  analyticsEnabled := .bool true

/-- The value of `config.production`. -/
def config.production (env : ProcessEnv) : ConfigRecord where
  apiUrl := .str (env.readOr "NEXT_PUBLIC_API_URL" "https://api.example.com")
  environment := .str "production"
  logLevel := .str "error"
  databaseUrl := env.read "DATABASE_URL"
  stripePublishableKey := env.read "NEXT_PUBLIC_STRIPE_PUBLISHABLE_KEY"
  featureBeta := .bool false
  analyticsEnabled := .bool true

/-- The own properties of the object literal `config`, in source order. -/
def config (env : ProcessEnv) : List (String × ConfigRecord) :=
  [("development", config.development env),
   ("staging", config.staging env),
   ("production", config.production env)]

/-- The property names every plain object inherits from `Object.prototype`
in the JavaScript runtime (methods, the `constructor` function and the
`__proto__` accessor). -/
def objectPrototypeKeys : List String :=
  ["constructor", "__defineGetter__", "__defineSetter__", "hasOwnProperty",
   "__lookupGetter__", "__lookupSetter__", "isPrototypeOf", "propertyIsEnumerable",
   "toString", "valueOf", "__proto__", "toLocaleString"]

/-- What a property lookup on `config` can yield besides `undefined`: an own
profile, or the member of `Object.prototype` of the given name (a function, or
for `__proto__` the prototype object itself). -/
inductive Member where
  | profile (r : ConfigRecord)
  | inherited (name : String)
  deriving DecidableEq, Repr

/-- The expression `config[key]`: own properties first, then the prototype
chain; `none` stands for `undefined`. -/
def config.lookup (env : ProcessEnv) (key : String) : Option Member :=
  match (config env).lookup key with
  | some r => some (.profile r)
  | none => if key ∈ objectPrototypeKeys then some (.inherited key) else none

/-- The function `getConfig` of `lib/config.js`. Objects and functions are
truthy, so `config[env] || config.development` falls back exactly when the
lookup is `undefined`. -/
def getConfig (env : ProcessEnv) : Member :=
  let e := env.readOr "NODE_ENV" "development"
  match config.lookup env e with
  | some m => m
  | none => .profile (config.development env)

/-- Reading a field of the value `getConfig` returned. No member of
`Object.prototype` has a property of one of the seven field names, so reading
one from an inherited member gives `undefined`. -/
def Member.field (m : Member) (f : ConfigRecord → JSValue) : JSValue :=
  match m with
  | .profile r => f r
  | .inherited _ => .undefined

/-- A concrete environment given by its list of set variables. -/
def ProcessEnv.ofList (vars : List (String × String)) : ProcessEnv :=
  fun key => vars.lookup key

/-! ## lib/config.js: validateEnvironment -/

/-- The state `validateEnvironment` runs in: the environment it reads and the
lines written so far with `console.warn`. -/
structure World where
  env : ProcessEnv
  console : List String

/-- The constant `required` of `validateEnvironment`. -/
def validateEnvironment.required : List String :=
  ["NEXT_PUBLIC_API_URL"]

/-- The constant `missing` of `validateEnvironment`:
`required.filter(key => !process.env[key])`. -/
def validateEnvironment.missing (env : ProcessEnv) : List String :=
  validateEnvironment.required.filter (fun key => !(env.read key).truthy)

/-- The function `validateEnvironment` of `lib/config.js`. It has no `return`
statement: its only effect is the line appended by `console.warn`. -/
def validateEnvironment (w : World) : World :=
  let missing := validateEnvironment.missing w.env
  if missing.length > 0 then
    { w with console := w.console ++
        ["Missing environment variables: " ++ ", ".intercalate missing] }
  else
    w

/-- The Missing-Variable Report in the words of the specification: the ordered
subsequence of the required names that are absent from the raw mapping. -/
def checkRequiredVariables (rawVars : ProcessEnv) : List String :=
  validateEnvironment.required.filter (fun name => decide (rawVars name = none))

/-! ## app/api/health/route.js -/

/-- The object under `secretsConfigured` in the health document. -/
structure SecretsConfigured where
  stripe : JSValue
  jwt : JSValue
  deriving DecidableEq, Repr

/-- The document passed to `Response.json` by the health handler. -/
structure HealthBody where
  status : JSValue
  environment : JSValue
  apiUrl : JSValue
  timestamp : JSValue
  secretsConfigured : SecretsConfigured
  deriving DecidableEq, Repr

/-- The response of the health handler: the document and the headers. -/
structure Response where
  body : HealthBody
  headers : List (String × String)
  deriving DecidableEq, Repr

/-- The handler `GET` of `app/api/health/route.js`. The argument `now` is the
value of `new Date().toISOString()`; the `request` argument is never read. -/
def GET (env : ProcessEnv) (now : String) : Response :=
  let environment := env.readOr "NODE_ENV" "development"
  let apiUrl := env.read "NEXT_PUBLIC_API_URL"
  let hasStripeSecret := (env.read "STRIPE_SECRET_KEY").notNot
  let hasJwtSecret := (env.read "JWT_SECRET").notNot
  { body :=
      { status := .str "healthy"
        environment := .str environment
        apiUrl := apiUrl
        timestamp := .str now
        secretsConfigured := { stripe := hasStripeSecret, jwt := hasJwtSecret } }
    headers := [("Content-Type", "application/json")] }

/-! ## next.config.js -/

/-- The constant `envFile` of `next.config.js`. -/
def envFile (env : ProcessEnv) : String :=
  if env.read "NODE_ENV" = .str "production" then ".env.production"
  else if env.read "NODE_ENV" = .str "staging" then ".env.staging"
  else ".env.development"

/-- An object literal with primitive property values, in source order. -/
abbrev Props := List (String × JSValue)

/-- The shape of the object `nextConfig`. -/
structure NextConfig where
  reactStrictMode : Bool
  env : Props
  publicRuntimeConfig : Props
  images : List String

/-- The object `nextConfig` exported by `next.config.js`. -/
def nextConfig (env : ProcessEnv) : NextConfig where
  reactStrictMode := true
  env :=
    [("DATABASE_URL", env.read "DATABASE_URL"),
     ("STRIPE_SECRET_KEY", env.read "STRIPE_SECRET_KEY"),
     ("JWT_SECRET", env.read "JWT_SECRET")]
  publicRuntimeConfig :=
    [("API_URL", env.read "NEXT_PUBLIC_API_URL"),
     ("ENVIRONMENT", env.read "NEXT_PUBLIC_ENVIRONMENT"),
     ("LOG_LEVEL", env.read "NEXT_PUBLIC_LOG_LEVEL"),
     ("STRIPE_PUBLISHABLE_KEY", env.read "NEXT_PUBLIC_STRIPE_PUBLISHABLE_KEY")]
  images := ["example.com"]

/-- The names of the properties of an object literal. -/
def Props.keys (o : Props) : List String :=
  o.map Prod.fst

/-! ## app/page.jsx -/

/-- The expression `o?.key` for one of the keys the page reads: `undefined`
when `o` is nullish or has no such property. -/
def Props.optChain (o : Option Props) (key : String) : JSValue :=
  match o with
  | none => .undefined
  | some props => (props.lookup key).getD .undefined

/-- The text React renders for an expression child: a string as it is,
nothing for `undefined`, `null` and booleans. -/
def JSValue.rendered : JSValue → String
  | .str s => s
  | _ => ""

/-- The four lines of the section "Environment Configuration" of the page. -/
structure HomeView where
  environment : String
  apiUrl : String
  logLevel : String
  analyticsEnabled : String
  deriving DecidableEq, Repr

/-- The initial value of the state `environment` of `Home`: `useState(null)`. -/
def Home.initialState : JSValue :=
  .null

/-- The value the effect of `Home` stores in the state `environment`. -/
def Home.effect (publicRuntimeConfig : Option Props) : JSValue :=
  Props.optChain publicRuntimeConfig "ENVIRONMENT"

/-- The component `Home` of `app/page.jsx`, as a function of the
`publicRuntimeConfig` that `getConfig()` of `next/config` hands to it and of
the current value of its state `environment`. -/
def Home (publicRuntimeConfig : Option Props) (environment : JSValue) : HomeView where
  environment := (environment.or (.str "Loading...")).rendered
  apiUrl := (Props.optChain publicRuntimeConfig "API_URL").rendered
  logLevel := (Props.optChain publicRuntimeConfig "LOG_LEVEL").rendered
  analyticsEnabled :=
    if (Props.optChain publicRuntimeConfig "ENABLE_ANALYTICS").truthy then "Yes" else "No"

/-- The keys `Home` reads from `publicRuntimeConfig` (lines 11 and 22 to 24). -/
def Home.keysRead : List String :=
  ["ENVIRONMENT", "API_URL", "LOG_LEVEL", "ENABLE_ANALYTICS"]

/-! ## Concrete environments -/

/-- The environment of the end-to-end scenario of the specification. -/
def scenarioEnv : ProcessEnv :=
  ProcessEnv.ofList
    [("NODE_ENV", "staging"),
     ("NEXT_PUBLIC_API_URL", "https://custom.example.com"),
     ("DATABASE_URL", "postgres://x")]

/-- An environment in which the public API URL is set to the empty string. -/
def emptyUrlEnv : ProcessEnv :=
  ProcessEnv.ofList [("NEXT_PUBLIC_API_URL", "")]

/-- A production environment with its secrets set. -/
def secretsEnvA : ProcessEnv :=
  ProcessEnv.ofList
    [("NODE_ENV", "production"),
     ("NEXT_PUBLIC_API_URL", "https://api.example.com"),
     ("DATABASE_URL", "postgres://prod-a"),
     ("STRIPE_SECRET_KEY", "sk_live_aaaa"),
     ("JWT_SECRET", "jwt-secret-a")]

/-- The environment `secretsEnvA` with every secret replaced by another value. -/
def secretsEnvB : ProcessEnv :=
  ProcessEnv.ofList
    [("NODE_ENV", "production"),
     ("NEXT_PUBLIC_API_URL", "https://api.example.com"),
     ("DATABASE_URL", "postgres://prod-b"),
     ("STRIPE_SECRET_KEY", "sk_live_bbbb"),
     ("JWT_SECRET", "jwt-secret-b")]

/-- A staging environment with all its public variables set. -/
def stagingEnv : ProcessEnv :=
  ProcessEnv.ofList
    [("NODE_ENV", "staging"),
     ("NEXT_PUBLIC_API_URL", "https://staging-api.example.com"),
     ("NEXT_PUBLIC_ENVIRONMENT", "staging"),
     ("NEXT_PUBLIC_LOG_LEVEL", "info"),
     ("NEXT_PUBLIC_ENABLE_ANALYTICS", "true")]

/-- A production process whose public API URL is present but empty, with
nothing written to the console yet. -/
def emptyUrlProductionWorld : World where
  env := ProcessEnv.ofList [("NODE_ENV", "production"), ("NEXT_PUBLIC_API_URL", "")]
  console := []

/-! ## Auxiliary facts about reading the environment -/

theorem ProcessEnv.read_truthy_iff (env : ProcessEnv) (key : String) :
    (env.read key).truthy = true ↔ ∃ s, env key = some s ∧ s ≠ "" := by
  unfold ProcessEnv.read
  cases h : env key with
  | none => simp [JSValue.truthy]
  | some s => simp [JSValue.truthy]

theorem ProcessEnv.readOr_of_set (env : ProcessEnv) (key fallback s : String)
    (h : env key = some s) (hs : s ≠ "") : env.readOr key fallback = s := by
  simp [ProcessEnv.readOr, ProcessEnv.read, h, JSValue.or, JSValue.truthy, hs]

theorem ProcessEnv.readOr_of_unset (env : ProcessEnv) (key fallback : String)
    (h : env key = none ∨ env key = some "") : env.readOr key fallback = fallback := by
  rcases h with h | h <;>
    simp [ProcessEnv.readOr, ProcessEnv.read, h, JSValue.or, JSValue.truthy]

theorem config.lookup_development (env : ProcessEnv) :
    config.lookup env "development" = some (.profile (config.development env)) := by
  simp [config.lookup, config, List.lookup]

theorem config.lookup_staging (env : ProcessEnv) :
    config.lookup env "staging" = some (.profile (config.staging env)) := by
  simp [config.lookup, config, List.lookup]

theorem config.lookup_production (env : ProcessEnv) :
    config.lookup env "production" = some (.profile (config.production env)) := by
  simp [config.lookup, config, List.lookup]

theorem config.lookup_other (env : ProcessEnv) (key : String)
    (h1 : key ≠ "development") (h2 : key ≠ "staging") (h3 : key ≠ "production")
    (h4 : key ∉ objectPrototypeKeys) : config.lookup env key = none := by
  have b1 : (key == "development") = false := by simpa using h1
  have b2 : (key == "staging") = false := by simpa using h2
  have b3 : (key == "production") = false := by simpa using h3
  simp [config.lookup, config, List.lookup, b1, b2, b3, h4]

theorem config.lookup_inherited (env : ProcessEnv) (key : String)
    (h : key ∈ objectPrototypeKeys) : config.lookup env key = some (.inherited key) := by
  have h1 : key ≠ "development" := by rintro rfl; revert h; decide
  have h2 : key ≠ "staging" := by rintro rfl; revert h; decide
  have h3 : key ≠ "production" := by rintro rfl; revert h; decide
  have b1 : (key == "development") = false := by simpa using h1
  have b2 : (key == "staging") = false := by simpa using h2
  have b3 : (key == "production") = false := by simpa using h3
  simp [config.lookup, config, List.lookup, b1, b2, b3, h]

/-! ## Auxiliary facts about getConfig -/

theorem getConfig_of_unrecognized (env : ProcessEnv)
    (h : ∀ s, env "NODE_ENV" = some s →
      s ≠ "staging" ∧ s ≠ "production" ∧ s ∉ objectPrototypeKeys) :
    getConfig env = .profile (config.development env) := by
  unfold getConfig
  cases hne : env "NODE_ENV" with
  | none =>
    simp [ProcessEnv.readOr_of_unset env "NODE_ENV" "development" (Or.inl hne),
      config.lookup_development]
  | some s =>
    by_cases hs : s = ""
    · subst hs
      simp [ProcessEnv.readOr_of_unset env "NODE_ENV" "development" (Or.inr hne),
        config.lookup_development]
    · obtain ⟨h2, h3, h4⟩ := h s hne
      rw [ProcessEnv.readOr_of_set env "NODE_ENV" "development" s hne hs]
      by_cases h1 : s = "development"
      · subst h1
        simp [config.lookup_development]
      · simp [config.lookup_other env s h1 h2 h3 h4]

theorem getConfig_of_staging (env : ProcessEnv) (h : env "NODE_ENV" = some "staging") :
    getConfig env = .profile (config.staging env) := by
  unfold getConfig
  rw [ProcessEnv.readOr_of_set env "NODE_ENV" "development" "staging" h (by decide)]
  simp [config.lookup_staging]

theorem getConfig_of_production (env : ProcessEnv)
    (h : env "NODE_ENV" = some "production") :
    getConfig env = .profile (config.production env) := by
  unfold getConfig
  rw [ProcessEnv.readOr_of_set env "NODE_ENV" "development" "production" h (by decide)]
  simp [config.lookup_production]

theorem getConfig_of_inherited (env : ProcessEnv) (s : String)
    (h : env "NODE_ENV" = some s) (hs : s ∈ objectPrototypeKeys) :
    getConfig env = .inherited s := by
  have hne : s ≠ "" := by rintro rfl; revert hs; decide
  unfold getConfig
  rw [ProcessEnv.readOr_of_set env "NODE_ENV" "development" s h hne]
  simp [config.lookup_inherited env s hs]

/-- Every profile `getConfig` returns is one of the three own profiles. -/
theorem getConfig_profile_cases (env : ProcessEnv) (r : ConfigRecord)
    (h : getConfig env = .profile r) :
    r = config.development env ∨ r = config.staging env ∨ r = config.production env := by
  cases hne : env "NODE_ENV" with
  | none =>
    rw [getConfig_of_unrecognized env (by intro s hs; rw [hne] at hs; cases hs)] at h
    exact Or.inl (Member.profile.inj h).symm
  | some s =>
    by_cases h2 : s = "staging"
    · subst h2
      rw [getConfig_of_staging env hne] at h
      exact Or.inr (Or.inl (Member.profile.inj h).symm)
    · by_cases h3 : s = "production"
      · subst h3
        rw [getConfig_of_production env hne] at h
        exact Or.inr (Or.inr (Member.profile.inj h).symm)
      · by_cases h4 : s ∈ objectPrototypeKeys
        · rw [getConfig_of_inherited env s hne h4] at h
          cases h
        · rw [getConfig_of_unrecognized env (by
            intro t ht
            rw [hne] at ht
            cases ht
            exact ⟨h2, h3, h4⟩)] at h
          exact Or.inl (Member.profile.inj h).symm

/-! ## getConfig: the fallback to the development profile -/

/-- C1, evaluated on the code. With `NODE_ENV` set to `constructor`, `toString`
or `__proto__` the lookup `config[env]` finds the member of that name on
`Object.prototype`, which is truthy, so `getConfig` returns that member and not
the development profile; every field read from it is `undefined`. For every
other indicator that is absent, empty or not `staging` or `production`,
`getConfig` returns the development profile with the documented values. -/
theorem getConfig_inherited_indicator_escapes_fallback :
    getConfig (ProcessEnv.ofList [("NODE_ENV", "constructor")]) = .inherited "constructor" ∧
    getConfig (ProcessEnv.ofList [("NODE_ENV", "toString")]) = .inherited "toString" ∧
    getConfig (ProcessEnv.ofList [("NODE_ENV", "__proto__")]) = .inherited "__proto__" ∧
    (getConfig (ProcessEnv.ofList [("NODE_ENV", "constructor")])).field
      ConfigRecord.environment = .undefined ∧
    (getConfig (ProcessEnv.ofList [("NODE_ENV", "constructor")])).field
      ConfigRecord.logLevel = .undefined ∧
    (getConfig (ProcessEnv.ofList [("NODE_ENV", "constructor")])).field
      ConfigRecord.featureBeta = .undefined ∧
    (getConfig (ProcessEnv.ofList [("NODE_ENV", "constructor")])).field
      ConfigRecord.analyticsEnabled = .undefined ∧
    (getConfig (ProcessEnv.ofList [("NODE_ENV", "constructor")])).field
      ConfigRecord.apiUrl = .undefined ∧
    getConfig (ProcessEnv.ofList [("NODE_ENV", "test")]) =
      .profile (config.development (ProcessEnv.ofList [("NODE_ENV", "test")])) ∧
    ∀ env : ProcessEnv,
      (∀ s, env "NODE_ENV" = some s →
        s ≠ "staging" ∧ s ≠ "production" ∧ s ∉ objectPrototypeKeys) →
      ∃ r, getConfig env = .profile r ∧
        r.environment = .str "development" ∧
        r.logLevel = .str "debug" ∧
        r.featureBeta = .bool true ∧
        r.analyticsEnabled = .bool false ∧
        ((env "NEXT_PUBLIC_API_URL" = none ∨ env "NEXT_PUBLIC_API_URL" = some "") →
          r.apiUrl = .str "http://localhost:3000/api") := by
  refine ⟨by decide, by decide, by decide, by decide, by decide, by decide, by decide,
    by decide, by decide, ?_⟩
  intro env h
  refine ⟨config.development env, getConfig_of_unrecognized env h, rfl, rfl, rfl, rfl, ?_⟩
  intro hu
  simp [config.development, ProcessEnv.readOr_of_unset env _ _ hu]

/-- C2. For each of the indicators `development`, `staging` and `production`
and every environment, `getConfig` returns a profile whose `environment` is the
indicator and whose `logLevel`, `featureBeta` and `analyticsEnabled` are those
of the defaults table; any other environment with the same indicator gives the
same four fields. -/
theorem getConfig_recognized_matches_table (env : ProcessEnv) (ind : String)
    (hind : ind = "development" ∨ ind = "staging" ∨ ind = "production")
    (henv : env "NODE_ENV" = some ind) :
    ∃ r, getConfig env = .profile r ∧
      r.environment = .str ind ∧
      ((ind = "development" ∧ r.logLevel = .str "debug" ∧
          r.featureBeta = .bool true ∧ r.analyticsEnabled = .bool false) ∨
       (ind = "staging" ∧ r.logLevel = .str "info" ∧
          r.featureBeta = .bool true ∧ r.analyticsEnabled = .bool true) ∨
       (ind = "production" ∧ r.logLevel = .str "error" ∧
          r.featureBeta = .bool false ∧ r.analyticsEnabled = .bool true)) ∧
      ∀ env2 : ProcessEnv, env2 "NODE_ENV" = some ind →
        ∃ r2, getConfig env2 = .profile r2 ∧
          r2.environment = r.environment ∧ r2.logLevel = r.logLevel ∧
          r2.featureBeta = r.featureBeta ∧ r2.analyticsEnabled = r.analyticsEnabled := by
  have dev : ∀ e : ProcessEnv, e "NODE_ENV" = some "development" →
      getConfig e = .profile (config.development e) := by
    intro e he
    apply getConfig_of_unrecognized
    intro s hs
    rw [he] at hs
    cases hs
    decide
  rcases hind with rfl | rfl | rfl
  · exact ⟨config.development env, dev env henv, rfl, Or.inl ⟨rfl, rfl, rfl, rfl⟩,
      fun env2 h2 => ⟨config.development env2, dev env2 h2, rfl, rfl, rfl, rfl⟩⟩
  · exact ⟨config.staging env, getConfig_of_staging env henv, rfl,
      Or.inr (Or.inl ⟨rfl, rfl, rfl, rfl⟩),
      fun env2 h2 => ⟨config.staging env2, getConfig_of_staging env2 h2, rfl, rfl, rfl, rfl⟩⟩
  · exact ⟨config.production env, getConfig_of_production env henv, rfl,
      Or.inr (Or.inr ⟨rfl, rfl, rfl, rfl⟩),
      fun env2 h2 =>
        ⟨config.production env2, getConfig_of_production env2 h2, rfl, rfl, rfl, rfl⟩⟩

/-- C2 at the staging scenario: the hypotheses hold there and the conclusion follows. -/
theorem getConfig_recognized_matches_table_witness :
    ("staging" = "development" ∨ "staging" = "staging" ∨ "staging" = "production") ∧
    scenarioEnv "NODE_ENV" = some "staging" ∧
    ∃ r, getConfig scenarioEnv = .profile r ∧
      r.environment = .str "staging" ∧
      (("staging" = "development" ∧ r.logLevel = .str "debug" ∧
          r.featureBeta = .bool true ∧ r.analyticsEnabled = .bool false) ∨
       ("staging" = "staging" ∧ r.logLevel = .str "info" ∧
          r.featureBeta = .bool true ∧ r.analyticsEnabled = .bool true) ∨
       ("staging" = "production" ∧ r.logLevel = .str "error" ∧
          r.featureBeta = .bool false ∧ r.analyticsEnabled = .bool true)) ∧
      ∀ env2 : ProcessEnv, env2 "NODE_ENV" = some "staging" →
        ∃ r2, getConfig env2 = .profile r2 ∧
          r2.environment = r.environment ∧ r2.logLevel = r.logLevel ∧
          r2.featureBeta = r.featureBeta ∧ r2.analyticsEnabled = r.analyticsEnabled :=
  ⟨by decide, by decide,
    getConfig_recognized_matches_table scenarioEnv "staging" (by decide) (by decide)⟩

/-- C3, evaluated on the code. With `NODE_ENV` set to `constructor` the value
`getConfig` returns has no `apiUrl`, although `NEXT_PUBLIC_API_URL` is set.
Whenever `getConfig` returns a profile, its `apiUrl` is the variable when it is
set and non-empty, and otherwise the default of the profile's environment. -/
theorem getConfig_apiUrl_override_or_default :
    (getConfig (ProcessEnv.ofList
        [("NODE_ENV", "constructor"),
         ("NEXT_PUBLIC_API_URL", "https://custom.example.com")])).field
      ConfigRecord.apiUrl = .undefined ∧
    ∀ (env : ProcessEnv) (r : ConfigRecord), getConfig env = .profile r →
      (∀ v, env "NEXT_PUBLIC_API_URL" = some v → v ≠ "" → r.apiUrl = .str v) ∧
      ((env "NEXT_PUBLIC_API_URL" = none ∨ env "NEXT_PUBLIC_API_URL" = some "") →
        (r.environment = .str "development" ∧
            r.apiUrl = .str "http://localhost:3000/api") ∨
        (r.environment = .str "staging" ∧
            r.apiUrl = .str "https://staging-api.example.com") ∨
        (r.environment = .str "production" ∧
            r.apiUrl = .str "https://api.example.com")) := by
  refine ⟨by decide, ?_⟩
  intro env r h
  constructor
  · intro v hv hne
    rcases getConfig_profile_cases env r h with rfl | rfl | rfl <;>
      simp [config.development, config.staging, config.production,
        ProcessEnv.readOr_of_set env _ _ v hv hne]
  · intro hu
    rcases getConfig_profile_cases env r h with rfl | rfl | rfl
    · exact Or.inl ⟨rfl, by simp [config.development, ProcessEnv.readOr_of_unset env _ _ hu]⟩
    · exact Or.inr (Or.inl
        ⟨rfl, by simp [config.staging, ProcessEnv.readOr_of_unset env _ _ hu]⟩)
    · exact Or.inr (Or.inr
        ⟨rfl, by simp [config.production, ProcessEnv.readOr_of_unset env _ _ hu]⟩)

/-- C4, evaluated on the code. With `NODE_ENV` set to `constructor` the value
`getConfig` returns has no `databaseUrl`, although `DATABASE_URL` is set.
Whenever `getConfig` returns a profile, `databaseUrl` and
`stripePublishableKey` are the variables read verbatim (`undefined` when unset,
the empty string when empty), and the staging scenario gives the documented
record. -/
theorem getConfig_passthrough_fields :
    (getConfig (ProcessEnv.ofList
        [("NODE_ENV", "constructor"), ("DATABASE_URL", "postgres://x")])).field
      ConfigRecord.databaseUrl = .undefined ∧
    (∀ (env : ProcessEnv) (r : ConfigRecord), getConfig env = .profile r →
      r.databaseUrl = env.read "DATABASE_URL" ∧
      r.stripePublishableKey = env.read "NEXT_PUBLIC_STRIPE_PUBLISHABLE_KEY") ∧
    (∀ (env : ProcessEnv) (key : String),
      (env key = none → env.read key = .undefined) ∧
      (env key = some "" → env.read key = .str "")) ∧
    getConfig scenarioEnv = .profile
      { apiUrl := .str "https://custom.example.com"
        environment := .str "staging"
        logLevel := .str "info"
        databaseUrl := .str "postgres://x"
        stripePublishableKey := .undefined
        featureBeta := .bool true
        analyticsEnabled := .bool true } := by
  refine ⟨by decide, ?_, ?_, by decide⟩
  · intro env r h
    rcases getConfig_profile_cases env r h with rfl | rfl | rfl <;> exact ⟨rfl, rfl⟩
  · intro env key
    constructor <;> intro h <;> simp [ProcessEnv.read, h]

/-! ## validateEnvironment -/

/-- C5, as stated, fails. With the public API URL present but empty, the list
`missing` that `validateEnvironment` computes names the variable, while the list
of required names absent from the mapping is empty. -/
theorem validateEnvironment_missing_counts_empty_string :
    validateEnvironment.missing emptyUrlEnv ≠ checkRequiredVariables emptyUrlEnv := by
  decide

/-- C5, amended. The list `missing` of `validateEnvironment` holds, in order,
the required names whose variable is unset or the empty string. The function
leaves the environment as it is and returns nothing; when the list is not empty
it writes one warning that lists the names joined by a comma and a blank, and
otherwise it writes nothing. The list names the public API URL for the empty
mapping and is empty when that variable is `x`. -/
theorem validateEnvironment_reports_unset_or_empty (w : World) :
    validateEnvironment.missing w.env =
      validateEnvironment.required.filter
        (fun key => decide (w.env key = none ∨ w.env key = some "")) ∧
    (validateEnvironment w).env = w.env ∧
    (validateEnvironment w).console =
      (if validateEnvironment.missing w.env = [] then w.console
       else w.console ++ ["Missing environment variables: " ++
         ", ".intercalate (validateEnvironment.missing w.env)]) ∧
    validateEnvironment.missing (ProcessEnv.ofList []) = ["NEXT_PUBLIC_API_URL"] ∧
    validateEnvironment.missing (ProcessEnv.ofList [("NEXT_PUBLIC_API_URL", "x")]) = [] := by
  refine ⟨?_, ?_, ?_, by decide, by decide⟩
  · unfold validateEnvironment.missing
    congr 1
    funext key
    unfold ProcessEnv.read
    cases h : w.env key with
    | none => simp [JSValue.truthy]
    | some s => simp [JSValue.truthy]
  · unfold validateEnvironment
    by_cases h : (validateEnvironment.missing w.env).length > 0 <;> simp [h]
  · unfold validateEnvironment
    cases h : validateEnvironment.missing w.env with
    | nil => simp
    | cons a l => simp

/-! ## The health handler -/

theorem ProcessEnv.notNot_read (env : ProcessEnv) (key : String) :
    ∃ b, (env.read key).notNot = .bool b ∧
      (b = true ↔ ∃ s, env key = some s ∧ s ≠ "") :=
  ⟨(env.read key).truthy, rfl, ProcessEnv.read_truthy_iff env key⟩

theorem ProcessEnv.notNot_read_congr (env1 env2 : ProcessEnv) (key : String)
    (h : (∃ s, env1 key = some s ∧ s ≠ "") ↔ (∃ s, env2 key = some s ∧ s ≠ "")) :
    (env1.read key).notNot = (env2.read key).notNot := by
  unfold JSValue.notNot
  congr 1
  rw [Bool.eq_iff_iff, ProcessEnv.read_truthy_iff, ProcessEnv.read_truthy_iff]
  exact h

/-- C6. Two environments that agree on `NODE_ENV` and `NEXT_PUBLIC_API_URL` and
on whether `STRIPE_SECRET_KEY` and `JWT_SECRET` are set and non-empty give
health documents that are equal once their timestamps are made equal; the
flags `secretsConfigured.stripe` and `secretsConfigured.jwt` are booleans, true
exactly when the secret is set and non-empty. -/
theorem GET_reveals_only_secret_presence (env1 env2 : ProcessEnv) (now1 now2 : String)
    (hnode : env1 "NODE_ENV" = env2 "NODE_ENV")
    (hapi : env1 "NEXT_PUBLIC_API_URL" = env2 "NEXT_PUBLIC_API_URL")
    (hstripe : (∃ s, env1 "STRIPE_SECRET_KEY" = some s ∧ s ≠ "") ↔
      (∃ s, env2 "STRIPE_SECRET_KEY" = some s ∧ s ≠ ""))
    (hjwt : (∃ s, env1 "JWT_SECRET" = some s ∧ s ≠ "") ↔
      (∃ s, env2 "JWT_SECRET" = some s ∧ s ≠ "")) :
    { (GET env1 now1).body with timestamp := (GET env2 now2).body.timestamp } =
      (GET env2 now2).body ∧
    (∃ b, (GET env1 now1).body.secretsConfigured.stripe = .bool b ∧
      (b = true ↔ ∃ s, env1 "STRIPE_SECRET_KEY" = some s ∧ s ≠ "")) ∧
    (∃ b, (GET env1 now1).body.secretsConfigured.jwt = .bool b ∧
      (b = true ↔ ∃ s, env1 "JWT_SECRET" = some s ∧ s ≠ "")) := by
  refine ⟨?_, ProcessEnv.notNot_read env1 _, ProcessEnv.notNot_read env1 _⟩
  have e1 : env1.readOr "NODE_ENV" "development" = env2.readOr "NODE_ENV" "development" := by
    simp [ProcessEnv.readOr, ProcessEnv.read, hnode]
  have e2 : env1.read "NEXT_PUBLIC_API_URL" = env2.read "NEXT_PUBLIC_API_URL" := by
    simp [ProcessEnv.read, hapi]
  simp only [GET, e1, e2, ProcessEnv.notNot_read_congr env1 env2 _ hstripe,
    ProcessEnv.notNot_read_congr env1 env2 _ hjwt]

/-- C6 at two production environments that differ in every secret value. -/
theorem GET_reveals_only_secret_presence_witness :
    secretsEnvA "STRIPE_SECRET_KEY" ≠ secretsEnvB "STRIPE_SECRET_KEY" ∧
    secretsEnvA "JWT_SECRET" ≠ secretsEnvB "JWT_SECRET" ∧
    secretsEnvA "NODE_ENV" = secretsEnvB "NODE_ENV" ∧
    secretsEnvA "NEXT_PUBLIC_API_URL" = secretsEnvB "NEXT_PUBLIC_API_URL" ∧
    ((∃ s, secretsEnvA "STRIPE_SECRET_KEY" = some s ∧ s ≠ "") ↔
      (∃ s, secretsEnvB "STRIPE_SECRET_KEY" = some s ∧ s ≠ "")) ∧
    ((∃ s, secretsEnvA "JWT_SECRET" = some s ∧ s ≠ "") ↔
      (∃ s, secretsEnvB "JWT_SECRET" = some s ∧ s ≠ "")) ∧
    { (GET secretsEnvA "2024-01-01T00:00:00.000Z").body with
        timestamp := (GET secretsEnvB "2024-06-30T12:00:00.000Z").body.timestamp } =
      (GET secretsEnvB "2024-06-30T12:00:00.000Z").body ∧
    (∃ b, (GET secretsEnvA "2024-01-01T00:00:00.000Z").body.secretsConfigured.stripe =
        .bool b ∧
      (b = true ↔ ∃ s, secretsEnvA "STRIPE_SECRET_KEY" = some s ∧ s ≠ "")) ∧
    (∃ b, (GET secretsEnvA "2024-01-01T00:00:00.000Z").body.secretsConfigured.jwt =
        .bool b ∧
      (b = true ↔ ∃ s, secretsEnvA "JWT_SECRET" = some s ∧ s ≠ "")) :=
  ⟨by decide, by decide, by decide, by decide,
    ⟨fun _ => ⟨"sk_live_bbbb", by decide, by decide⟩,
      fun _ => ⟨"sk_live_aaaa", by decide, by decide⟩⟩,
    ⟨fun _ => ⟨"jwt-secret-b", by decide, by decide⟩,
      fun _ => ⟨"jwt-secret-a", by decide, by decide⟩⟩,
    GET_reveals_only_secret_presence secretsEnvA secretsEnvB
      "2024-01-01T00:00:00.000Z" "2024-06-30T12:00:00.000Z" (by decide) (by decide)
      ⟨fun _ => ⟨"sk_live_bbbb", by decide, by decide⟩,
        fun _ => ⟨"sk_live_aaaa", by decide, by decide⟩⟩
      ⟨fun _ => ⟨"jwt-secret-b", by decide, by decide⟩,
        fun _ => ⟨"jwt-secret-a", by decide, by decide⟩⟩⟩

/-- C8, as stated, fails. For the empty environment the `apiUrl` of the health
document is `undefined`, not a string. -/
theorem GET_apiUrl_undefined_when_unset :
    (GET (ProcessEnv.ofList []) "2024-01-01T00:00:00.000Z").body.apiUrl.isString = false ∧
    (GET (ProcessEnv.ofList []) "2024-01-01T00:00:00.000Z").body.apiUrl = .undefined := by
  decide

/-- C8, amended. For every environment the health document has `status` equal
to `healthy`, an `environment` that is a string (`development` when `NODE_ENV`
is unset or empty), a `timestamp` that is the string handed over by the clock,
and two boolean flags under
`secretsConfigured`; its `apiUrl` is the variable `NEXT_PUBLIC_API_URL` as read:
a string when the variable is set and `undefined` when it is not. -/
theorem GET_document_shape (env : ProcessEnv) (now : String) :
    (GET env now).body.status = .str "healthy" ∧
    (GET env now).body.environment.isString = true ∧
    ((env "NODE_ENV" = none ∨ env "NODE_ENV" = some "") →
      (GET env now).body.environment = .str "development") ∧
    (GET env now).body.timestamp = .str now ∧
    (GET env now).body.secretsConfigured.stripe.isBoolean = true ∧
    (GET env now).body.secretsConfigured.jwt.isBoolean = true ∧
    (∀ v, env "NEXT_PUBLIC_API_URL" = some v → (GET env now).body.apiUrl = .str v) ∧
    (env "NEXT_PUBLIC_API_URL" = none → (GET env now).body.apiUrl = .undefined) ∧
    ((GET env now).body.apiUrl.isString = true ↔ env "NEXT_PUBLIC_API_URL" ≠ none) := by
  refine ⟨rfl, rfl, ?_, rfl, rfl, rfl, ?_, ?_, ?_⟩
  · intro h
    simp [GET, ProcessEnv.readOr_of_unset env _ _ h]
  · intro v h
    simp [GET, ProcessEnv.read, h]
  · intro h
    simp [GET, ProcessEnv.read, h]
  · cases h : env "NEXT_PUBLIC_API_URL" with
    | none => simp [GET, ProcessEnv.read, h, JSValue.isString]
    | some v => simp [GET, ProcessEnv.read, h, JSValue.isString]

/-! ## The public projection -/

/-- The value `getConfig` returns reads the same in every field but
`databaseUrl` in two environments that agree on `NODE_ENV`,
`NEXT_PUBLIC_API_URL` and `NEXT_PUBLIC_STRIPE_PUBLISHABLE_KEY`. -/
theorem getConfig_field_congr (env1 env2 : ProcessEnv) (f : ConfigRecord → JSValue)
    (hnode : env1 "NODE_ENV" = env2 "NODE_ENV")
    (hdev : f (config.development env1) = f (config.development env2))
    (hstg : f (config.staging env1) = f (config.staging env2))
    (hprod : f (config.production env1) = f (config.production env2)) :
    (getConfig env1).field f = (getConfig env2).field f := by
  have un : ∀ (e : ProcessEnv) (s : String), e "NODE_ENV" = some s → s ≠ "staging" →
      s ≠ "production" → s ∉ objectPrototypeKeys →
      getConfig e = .profile (config.development e) := by
    intro e s he h2 h3 h4
    apply getConfig_of_unrecognized
    intro t ht
    rw [he] at ht
    cases ht
    exact ⟨h2, h3, h4⟩
  cases h1 : env1 "NODE_ENV" with
  | none =>
    have h2 : env2 "NODE_ENV" = none := by rw [← hnode, h1]
    rw [getConfig_of_unrecognized env1 (by intro s hs; rw [h1] at hs; cases hs),
      getConfig_of_unrecognized env2 (by intro s hs; rw [h2] at hs; cases hs)]
    exact hdev
  | some s =>
    have h2 : env2 "NODE_ENV" = some s := by rw [← hnode, h1]
    by_cases c2 : s = "staging"
    · subst c2
      rw [getConfig_of_staging env1 h1, getConfig_of_staging env2 h2]
      exact hstg
    · by_cases c3 : s = "production"
      · subst c3
        rw [getConfig_of_production env1 h1, getConfig_of_production env2 h2]
        exact hprod
      · by_cases c4 : s ∈ objectPrototypeKeys
        · rw [getConfig_of_inherited env1 s h1 c4, getConfig_of_inherited env2 s h2 c4]
        · rw [un env1 s h1 c2 c3 c4, un env2 s h2 c2 c3 c4]
          exact hdev

/-- C7. The block `publicRuntimeConfig` of `next.config.js` has the keys
`API_URL`, `ENVIRONMENT`, `LOG_LEVEL` and `STRIPE_PUBLISHABLE_KEY`, none of which
is a key of the server-side `env` block (`DATABASE_URL`, `STRIPE_SECRET_KEY`,
`JWT_SECRET`) or the field name `databaseUrl`; and for two environments that
differ only in `DATABASE_URL`, `STRIPE_SECRET_KEY` and `JWT_SECRET` the block is
identical, as is every field of the value of `getConfig` other than the
server-only `databaseUrl`. -/
theorem publicRuntimeConfig_excludes_secrets (env1 env2 : ProcessEnv)
    (h : ∀ key, key ≠ "DATABASE_URL" → key ≠ "STRIPE_SECRET_KEY" → key ≠ "JWT_SECRET" →
      env1 key = env2 key) :
    (nextConfig env1).publicRuntimeConfig.keys =
      ["API_URL", "ENVIRONMENT", "LOG_LEVEL", "STRIPE_PUBLISHABLE_KEY"] ∧
    (nextConfig env1).env.keys = ["DATABASE_URL", "STRIPE_SECRET_KEY", "JWT_SECRET"] ∧
    (∀ key ∈ (nextConfig env1).publicRuntimeConfig.keys,
      key ∉ (nextConfig env1).env.keys ∧ key ≠ "databaseUrl") ∧
    (nextConfig env1).publicRuntimeConfig = (nextConfig env2).publicRuntimeConfig ∧
    (getConfig env1).field ConfigRecord.apiUrl = (getConfig env2).field ConfigRecord.apiUrl ∧
    (getConfig env1).field ConfigRecord.environment =
      (getConfig env2).field ConfigRecord.environment ∧
    (getConfig env1).field ConfigRecord.logLevel =
      (getConfig env2).field ConfigRecord.logLevel ∧
    (getConfig env1).field ConfigRecord.stripePublishableKey =
      (getConfig env2).field ConfigRecord.stripePublishableKey ∧
    (getConfig env1).field ConfigRecord.featureBeta =
      (getConfig env2).field ConfigRecord.featureBeta ∧
    (getConfig env1).field ConfigRecord.analyticsEnabled =
      (getConfig env2).field ConfigRecord.analyticsEnabled := by
  have hnode : env1 "NODE_ENV" = env2 "NODE_ENV" := h _ (by decide) (by decide) (by decide)
  have hapi : env1 "NEXT_PUBLIC_API_URL" = env2 "NEXT_PUBLIC_API_URL" :=
    h _ (by decide) (by decide) (by decide)
  have henv : env1 "NEXT_PUBLIC_ENVIRONMENT" = env2 "NEXT_PUBLIC_ENVIRONMENT" :=
    h _ (by decide) (by decide) (by decide)
  have hlog : env1 "NEXT_PUBLIC_LOG_LEVEL" = env2 "NEXT_PUBLIC_LOG_LEVEL" :=
    h _ (by decide) (by decide) (by decide)
  have hpk : env1 "NEXT_PUBLIC_STRIPE_PUBLISHABLE_KEY" =
      env2 "NEXT_PUBLIC_STRIPE_PUBLISHABLE_KEY" := h _ (by decide) (by decide) (by decide)
  have rapi : ∀ d, env1.readOr "NEXT_PUBLIC_API_URL" d = env2.readOr "NEXT_PUBLIC_API_URL" d := by
    intro d
    simp [ProcessEnv.readOr, ProcessEnv.read, hapi]
  have rpk : env1.read "NEXT_PUBLIC_STRIPE_PUBLISHABLE_KEY" =
      env2.read "NEXT_PUBLIC_STRIPE_PUBLISHABLE_KEY" := by
    simp [ProcessEnv.read, hpk]
  refine ⟨rfl, rfl, ?_, ?_, ?_, ?_, ?_, ?_, ?_, ?_⟩
  · intro key hk
    have hk2 : key = "API_URL" ∨ key = "ENVIRONMENT" ∨ key = "LOG_LEVEL" ∨
        key = "STRIPE_PUBLISHABLE_KEY" := by
      simpa [nextConfig, Props.keys] using hk
    have hs : (nextConfig env1).env.keys =
        ["DATABASE_URL", "STRIPE_SECRET_KEY", "JWT_SECRET"] := rfl
    rw [hs]
    rcases hk2 with rfl | rfl | rfl | rfl <;> decide
  · simp [nextConfig, ProcessEnv.read, hapi, henv, hlog, hpk]
  · exact getConfig_field_congr env1 env2 _ hnode
      (by simp [config.development, rapi]) (by simp [config.staging, rapi])
      (by simp [config.production, rapi])
  · exact getConfig_field_congr env1 env2 _ hnode rfl rfl rfl
  · exact getConfig_field_congr env1 env2 _ hnode rfl rfl rfl
  · exact getConfig_field_congr env1 env2 _ hnode
      (by simp [config.development, rpk]) (by simp [config.staging, rpk])
      (by simp [config.production, rpk])
  · exact getConfig_field_congr env1 env2 _ hnode rfl rfl rfl
  · exact getConfig_field_congr env1 env2 _ hnode rfl rfl rfl

/-- C7 at two production environments that differ in every secret value. -/
theorem publicRuntimeConfig_excludes_secrets_witness :
    (∀ key, key ≠ "DATABASE_URL" → key ≠ "STRIPE_SECRET_KEY" → key ≠ "JWT_SECRET" →
      secretsEnvA key = secretsEnvB key) ∧
    secretsEnvA "DATABASE_URL" ≠ secretsEnvB "DATABASE_URL" ∧
    secretsEnvA "STRIPE_SECRET_KEY" ≠ secretsEnvB "STRIPE_SECRET_KEY" ∧
    secretsEnvA "JWT_SECRET" ≠ secretsEnvB "JWT_SECRET" ∧
    (nextConfig secretsEnvA).publicRuntimeConfig.keys =
      ["API_URL", "ENVIRONMENT", "LOG_LEVEL", "STRIPE_PUBLISHABLE_KEY"] ∧
    (nextConfig secretsEnvA).env.keys = ["DATABASE_URL", "STRIPE_SECRET_KEY", "JWT_SECRET"] ∧
    (∀ key ∈ (nextConfig secretsEnvA).publicRuntimeConfig.keys,
      key ∉ (nextConfig secretsEnvA).env.keys ∧ key ≠ "databaseUrl") ∧
    (nextConfig secretsEnvA).publicRuntimeConfig =
      (nextConfig secretsEnvB).publicRuntimeConfig ∧
    (getConfig secretsEnvA).field ConfigRecord.apiUrl =
      (getConfig secretsEnvB).field ConfigRecord.apiUrl ∧
    (getConfig secretsEnvA).field ConfigRecord.environment =
      (getConfig secretsEnvB).field ConfigRecord.environment ∧
    (getConfig secretsEnvA).field ConfigRecord.logLevel =
      (getConfig secretsEnvB).field ConfigRecord.logLevel ∧
    (getConfig secretsEnvA).field ConfigRecord.stripePublishableKey =
      (getConfig secretsEnvB).field ConfigRecord.stripePublishableKey ∧
    (getConfig secretsEnvA).field ConfigRecord.featureBeta =
      (getConfig secretsEnvB).field ConfigRecord.featureBeta ∧
    (getConfig secretsEnvA).field ConfigRecord.analyticsEnabled =
      (getConfig secretsEnvB).field ConfigRecord.analyticsEnabled :=
  have h : ∀ key, key ≠ "DATABASE_URL" → key ≠ "STRIPE_SECRET_KEY" → key ≠ "JWT_SECRET" →
      secretsEnvA key = secretsEnvB key := by
    intro key h1 h2 h3
    have b1 : (key == "DATABASE_URL") = false := by simpa using h1
    have b2 : (key == "STRIPE_SECRET_KEY") = false := by simpa using h2
    have b3 : (key == "JWT_SECRET") = false := by simpa using h3
    simp [secretsEnvA, secretsEnvB, ProcessEnv.ofList, List.lookup, b1, b2, b3]
  ⟨h, by decide, by decide, by decide,
    publicRuntimeConfig_excludes_secrets secretsEnvA secretsEnvB h⟩

/-! ## The page -/

/-- C9, evaluated on the code. `Home` reads the key `ENABLE_ANALYTICS`, which the
block `publicRuntimeConfig` of `next.config.js` never supplies, so the line
"Analytics Enabled" shows `No` for every environment and every value of the
state; in the staging environment analytics is enabled in the profile of
`getConfig` and the page still shows `No`. The other three keys read are
supplied, and no key read is a key of the server-side `env` block. -/
theorem Home_analytics_line_never_yes :
    "ENABLE_ANALYTICS" ∈ Home.keysRead ∧
    (∀ env : ProcessEnv, "ENABLE_ANALYTICS" ∉ (nextConfig env).publicRuntimeConfig.keys) ∧
    (∀ (env : ProcessEnv) (state : JSValue),
      (Home (some (nextConfig env).publicRuntimeConfig) state).analyticsEnabled = "No") ∧
    (getConfig stagingEnv).field ConfigRecord.analyticsEnabled = .bool true ∧
    Home (some (nextConfig stagingEnv).publicRuntimeConfig)
        (Home.effect (some (nextConfig stagingEnv).publicRuntimeConfig)) =
      { environment := "staging"
        apiUrl := "https://staging-api.example.com"
        logLevel := "info"
        analyticsEnabled := "No" } ∧
    (∀ env : ProcessEnv, ∀ key ∈ Home.keysRead, key ≠ "ENABLE_ANALYTICS" →
      key ∈ (nextConfig env).publicRuntimeConfig.keys) ∧
    (∀ env : ProcessEnv, ∀ key ∈ Home.keysRead, key ∉ (nextConfig env).env.keys) := by
  have hp : ∀ env : ProcessEnv, (nextConfig env).publicRuntimeConfig.keys =
      ["API_URL", "ENVIRONMENT", "LOG_LEVEL", "STRIPE_PUBLISHABLE_KEY"] := fun _ => rfl
  have hs : ∀ env : ProcessEnv, (nextConfig env).env.keys =
      ["DATABASE_URL", "STRIPE_SECRET_KEY", "JWT_SECRET"] := fun _ => rfl
  have hk : ∀ key ∈ Home.keysRead, key = "ENVIRONMENT" ∨ key = "API_URL" ∨
      key = "LOG_LEVEL" ∨ key = "ENABLE_ANALYTICS" := by
    intro key h
    simpa [Home.keysRead] using h
  refine ⟨by decide, ?_, ?_, by decide, by decide, ?_, ?_⟩
  · intro env
    rw [hp env]
    decide
  · intro env state
    simp [Home, Props.optChain, nextConfig, List.lookup, JSValue.truthy]
  · intro env key h hne
    rw [hp env]
    rcases hk key h with rfl | rfl | rfl | rfl
    · decide
    · decide
    · decide
    · exact absurd rfl hne
  · intro env key h
    rw [hs env]
    rcases hk key h with rfl | rfl | rfl | rfl <;> decide

/-! ## validateEnvironment and getConfig together -/

/-- C10. For an environment whose `NODE_ENV` is unset or one of `development`,
`staging` and `production`: when `NEXT_PUBLIC_API_URL` is unset or empty,
`validateEnvironment` names it as missing and writes the warning, and
`getConfig` returns a profile whose `apiUrl` is the default of its environment;
when the variable is set and non-empty, nothing is written and `apiUrl` is the
variable. Running `validateEnvironment` leaves the value of `getConfig`
unchanged. -/
theorem validateEnvironment_warns_iff_getConfig_defaults (w : World)
    (hnode : w.env "NODE_ENV" = none ∨ w.env "NODE_ENV" = some "development" ∨
      w.env "NODE_ENV" = some "staging" ∨ w.env "NODE_ENV" = some "production") :
    ((w.env "NEXT_PUBLIC_API_URL" = none ∨ w.env "NEXT_PUBLIC_API_URL" = some "") ↔
      "NEXT_PUBLIC_API_URL" ∈ validateEnvironment.missing w.env) ∧
    ((w.env "NEXT_PUBLIC_API_URL" = none ∨ w.env "NEXT_PUBLIC_API_URL" = some "") →
      (validateEnvironment w).console =
        w.console ++ ["Missing environment variables: NEXT_PUBLIC_API_URL"]) ∧
    (¬ (w.env "NEXT_PUBLIC_API_URL" = none ∨ w.env "NEXT_PUBLIC_API_URL" = some "") →
      (validateEnvironment w).console = w.console) ∧
    (∃ r, getConfig w.env = .profile r ∧
      ((w.env "NEXT_PUBLIC_API_URL" = none ∨ w.env "NEXT_PUBLIC_API_URL" = some "") →
        r.apiUrl ≠ w.env.read "NEXT_PUBLIC_API_URL" ∧
        ((r.environment = .str "development" ∧
            r.apiUrl = .str "http://localhost:3000/api") ∨
         (r.environment = .str "staging" ∧
            r.apiUrl = .str "https://staging-api.example.com") ∨
         (r.environment = .str "production" ∧
            r.apiUrl = .str "https://api.example.com"))) ∧
      (¬ (w.env "NEXT_PUBLIC_API_URL" = none ∨ w.env "NEXT_PUBLIC_API_URL" = some "") →
        r.apiUrl = w.env.read "NEXT_PUBLIC_API_URL")) ∧
    getConfig (validateEnvironment w).env = getConfig w.env := by
  have hmiss : (w.env "NEXT_PUBLIC_API_URL" = none ∨ w.env "NEXT_PUBLIC_API_URL" = some "") →
      validateEnvironment.missing w.env = ["NEXT_PUBLIC_API_URL"] := by
    intro hu
    rcases hu with hu | hu <;>
      simp [validateEnvironment.missing, validateEnvironment.required, ProcessEnv.read, hu,
        JSValue.truthy]
  have hnomiss : ¬ (w.env "NEXT_PUBLIC_API_URL" = none ∨ w.env "NEXT_PUBLIC_API_URL" = some "") →
      validateEnvironment.missing w.env = [] := by
    intro hu
    cases hv : w.env "NEXT_PUBLIC_API_URL" with
    | none => exact absurd (Or.inl hv) hu
    | some v =>
      have hne : v ≠ "" := fun hz => hu (Or.inr (by rw [hv, hz]))
      simp [validateEnvironment.missing, validateEnvironment.required, ProcessEnv.read, hv,
        JSValue.truthy, hne]
  have hprofile : ∃ r, getConfig w.env = .profile r ∧
      (r = config.development w.env ∨ r = config.staging w.env ∨
        r = config.production w.env) := by
    rcases hnode with h | h | h | h
    · exact ⟨_, getConfig_of_unrecognized w.env (by intro s hs; rw [h] at hs; cases hs),
        Or.inl rfl⟩
    · exact ⟨_, getConfig_of_unrecognized w.env
        (by intro s hs; rw [h] at hs; cases hs; decide), Or.inl rfl⟩
    · exact ⟨_, getConfig_of_staging w.env h, Or.inr (Or.inl rfl)⟩
    · exact ⟨_, getConfig_of_production w.env h, Or.inr (Or.inr rfl)⟩
  refine ⟨?_, ?_, ?_, ?_, ?_⟩
  · constructor
    · intro hu
      rw [hmiss hu]
      simp
    · intro hin
      by_contra hu
      rw [hnomiss hu] at hin
      cases hin
  · intro hu
    simp [validateEnvironment, hmiss hu]
    decide
  · intro hu
    simp [validateEnvironment, hnomiss hu]
  · obtain ⟨r, hr, hcases⟩ := hprofile
    refine ⟨r, hr, ?_, ?_⟩
    · intro hu
      have hread : w.env.read "NEXT_PUBLIC_API_URL" = .undefined ∨
          w.env.read "NEXT_PUBLIC_API_URL" = .str "" := by
        rcases hu with hu | hu <;> simp [ProcessEnv.read, hu]
      rcases hcases with rfl | rfl | rfl
      · have ha : (config.development w.env).apiUrl = .str "http://localhost:3000/api" := by
          simp [config.development, ProcessEnv.readOr_of_unset w.env _ _ hu]
        refine ⟨?_, Or.inl ⟨rfl, ha⟩⟩
        rw [ha]
        rcases hread with e | e <;> rw [e] <;> decide
      · have ha : (config.staging w.env).apiUrl = .str "https://staging-api.example.com" := by
          simp [config.staging, ProcessEnv.readOr_of_unset w.env _ _ hu]
        refine ⟨?_, Or.inr (Or.inl ⟨rfl, ha⟩)⟩
        rw [ha]
        rcases hread with e | e <;> rw [e] <;> decide
      · have ha : (config.production w.env).apiUrl = .str "https://api.example.com" := by
          simp [config.production, ProcessEnv.readOr_of_unset w.env _ _ hu]
        refine ⟨?_, Or.inr (Or.inr ⟨rfl, ha⟩)⟩
        rw [ha]
        rcases hread with e | e <;> rw [e] <;> decide
    · intro hu
      cases hv : w.env "NEXT_PUBLIC_API_URL" with
      | none => exact absurd (Or.inl hv) hu
      | some v =>
        have hne : v ≠ "" := fun hz => hu (Or.inr (by rw [hv, hz]))
        rcases hcases with rfl | rfl | rfl <;>
          simp [config.development, config.staging, config.production, ProcessEnv.read, hv,
            ProcessEnv.readOr_of_set w.env _ _ v hv hne]
  · have he : (validateEnvironment w).env = w.env := by
      unfold validateEnvironment
      by_cases h : (validateEnvironment.missing w.env).length > 0 <;> simp [h]
    rw [he]

/-- C10 at a production process whose public API URL is present but empty. -/
theorem validateEnvironment_warns_iff_getConfig_defaults_witness :
    (emptyUrlProductionWorld.env "NODE_ENV" = none ∨
      emptyUrlProductionWorld.env "NODE_ENV" = some "development" ∨
      emptyUrlProductionWorld.env "NODE_ENV" = some "staging" ∨
      emptyUrlProductionWorld.env "NODE_ENV" = some "production") ∧
    emptyUrlProductionWorld.env "NEXT_PUBLIC_API_URL" = some "" ∧
    (((emptyUrlProductionWorld.env "NEXT_PUBLIC_API_URL" = none ∨
        emptyUrlProductionWorld.env "NEXT_PUBLIC_API_URL" = some "") ↔
      "NEXT_PUBLIC_API_URL" ∈ validateEnvironment.missing emptyUrlProductionWorld.env) ∧
    ((emptyUrlProductionWorld.env "NEXT_PUBLIC_API_URL" = none ∨
        emptyUrlProductionWorld.env "NEXT_PUBLIC_API_URL" = some "") →
      (validateEnvironment emptyUrlProductionWorld).console =
        emptyUrlProductionWorld.console ++
          ["Missing environment variables: NEXT_PUBLIC_API_URL"]) ∧
    (¬ (emptyUrlProductionWorld.env "NEXT_PUBLIC_API_URL" = none ∨
        emptyUrlProductionWorld.env "NEXT_PUBLIC_API_URL" = some "") →
      (validateEnvironment emptyUrlProductionWorld).console =
        emptyUrlProductionWorld.console) ∧
    (∃ r, getConfig emptyUrlProductionWorld.env = .profile r ∧
      ((emptyUrlProductionWorld.env "NEXT_PUBLIC_API_URL" = none ∨
          emptyUrlProductionWorld.env "NEXT_PUBLIC_API_URL" = some "") →
        r.apiUrl ≠ emptyUrlProductionWorld.env.read "NEXT_PUBLIC_API_URL" ∧
        ((r.environment = .str "development" ∧
            r.apiUrl = .str "http://localhost:3000/api") ∨
         (r.environment = .str "staging" ∧
            r.apiUrl = .str "https://staging-api.example.com") ∨
         (r.environment = .str "production" ∧
            r.apiUrl = .str "https://api.example.com"))) ∧
      (¬ (emptyUrlProductionWorld.env "NEXT_PUBLIC_API_URL" = none ∨
          emptyUrlProductionWorld.env "NEXT_PUBLIC_API_URL" = some "") →
        r.apiUrl = emptyUrlProductionWorld.env.read "NEXT_PUBLIC_API_URL")) ∧
    getConfig (validateEnvironment emptyUrlProductionWorld).env =
      getConfig emptyUrlProductionWorld.env) :=
  ⟨by decide, by decide,
    validateEnvironment_warns_iff_getConfig_defaults emptyUrlProductionWorld (by decide)⟩

end EnvConfig
